import Mathlib

/-!
Verification of the titration-simulator core of this repository.

The embedding below translates `calculate_ph` and the session-state update
logic of `main` in `src/main.py` into Lean definitions over the reals:

* `calculate_ph` mirrors the Python function of the same name (floats are
  idealised as real numbers);
* `ExperimentState` mirrors the `st.session_state` fields used by `main`;
* `advance` is one iteration of the simulation loop body, guarded exactly
  as in the source (`if is_running and not has_reached_neutral`);
* `toggleRunning` and `resetState` mirror the two button handlers;
* `neutralBeepSequences` counts how many times the completion beep
  sequence is played during one loop iteration (the source contains a
  duplicated, nested re-check of the neutrality condition).
-/

namespace Titration

/-- Translation of `calculate_ph` from `src/main.py` (lines 11-33).
`moles_acid = initial_volume_vinegar * initial_conc_vinegar`,
`moles_base = volume_naoh * 0.1`, and the three branches on the sign of
`remaining_acid`. -/
noncomputable def calculate_ph (volume_naoh initial_volume_vinegar
    initial_conc_vinegar : ℝ) : ℝ :=
  let moles_acid := initial_volume_vinegar * initial_conc_vinegar
  let moles_base := volume_naoh * 0.1
  let remaining_acid := moles_acid - moles_base
  if remaining_acid > 0 then
    -Real.logb 10 (Real.sqrt (remaining_acid * 1.8e-5))
  else if remaining_acid < 0 then
    -Real.logb 10 (1e-14 / (-remaining_acid))
  else
    7.0

/-- `calculate_ph` with the default acid concentration `0.8` used by every
call site in the source. -/
noncomputable def computePh (volume_naoh initial_volume_vinegar : ℝ) : ℝ :=
  calculate_ph volume_naoh initial_volume_vinegar 0.8

/-- The `st.session_state` fields of `main` that the simulation loop reads
and writes. -/
@[ext]
structure ExperimentState where
  volume_naoh : ℝ
  is_running : Bool
  data : List (ℝ × ℝ)
  has_reached_neutral : Bool
  initial_vinegar : ℝ

/-- The defaults installed by the session-state block of `main`
(lines 81-91). -/
def initialState : ExperimentState :=
  { volume_naoh := 0, is_running := false, data := [],
    has_reached_neutral := false, initial_vinegar := 50 }

/-- One iteration of the simulation loop body of `main` (lines 128-164),
guarded as in the source: the body runs only when
`is_running and not has_reached_neutral`.  The nested duplicate of the
latch block (lines 243-245) re-assigns the very same field values, so it
does not change the resulting state. -/
noncomputable def advance (s : ExperimentState) : ExperimentState :=
  if s.is_running = true ∧ s.has_reached_neutral = false then
    let volume := s.volume_naoh + 0.1
    let ph := calculate_ph volume s.initial_vinegar 0.8
    let newData := s.data ++ [(volume, ph)]
    if ph > 6.5 then
      { s with volume_naoh := volume, data := newData,
               is_running := false, has_reached_neutral := true }
    else
      { s with volume_naoh := volume, data := newData }
  else s

/-- The start/stop button handler of `main` (lines 118-119): it flips
`is_running` unconditionally. -/
def toggleRunning (s : ExperimentState) : ExperimentState :=
  { s with is_running := !s.is_running }

/-- The reset button handler of `main` (lines 121-125). -/
def resetState (s : ExperimentState) : ExperimentState :=
  { s with volume_naoh := 0, is_running := false, data := [],
           has_reached_neutral := false }

/-- Number of times the completion beep sequence is played during one loop
iteration of `main`: once in the latch block (lines 162-240), and a second
time in the duplicated nested block guarded by `6.5 < ph < 7.5`
(lines 243-321). -/
noncomputable def neutralBeepSequences (s : ExperimentState) : ℕ :=
  if s.is_running = true ∧ s.has_reached_neutral = false then
    let ph := calculate_ph (s.volume_naoh + 0.1) s.initial_vinegar 0.8
    if ph > 6.5 then 1 + (if ph > 6.5 ∧ ph < 7.5 then 1 else 0) else 0
  else 0

/-- Modelled from the spec: the spec's `computePh` rejects calls with a
negative titrant volume or non-positive analyte volume with an
InvalidInput error (section 7 of the spec); used only to compare the
spec's validation behaviour against the source. -/
noncomputable def computePhSpecValidated (volume_naoh
    initial_volume_vinegar : ℝ) : Option ℝ :=
  if 0 ≤ volume_naoh ∧ 0 < initial_volume_vinegar then
    some (computePh volume_naoh initial_volume_vinegar)
  else
    none

/-! ### Branch-evaluation lemmas for `calculate_ph` -/

lemma calculate_ph_pos_branch {v a c : ℝ} (h : 0 < a * c - v * 0.1) :
    calculate_ph v a c =
      -Real.logb 10 (Real.sqrt ((a * c - v * 0.1) * 1.8e-5)) := by
  simp only [calculate_ph]
  rw [if_pos h]

lemma calculate_ph_neg_branch {v a c : ℝ} (h : a * c - v * 0.1 < 0) :
    calculate_ph v a c =
      -Real.logb 10 (1e-14 / (-(a * c - v * 0.1))) := by
  simp only [calculate_ph]
  rw [if_neg (by push_neg; linarith), if_pos h]

lemma calculate_ph_zero_branch {v a c : ℝ} (h : a * c - v * 0.1 = 0) :
    calculate_ph v a c = 7 := by
  simp only [calculate_ph]
  rw [if_neg (by push_neg; linarith), if_neg (by push_neg; linarith)]
  norm_num

/-! ### Numeric helper lemmas about `-logb 10` -/

lemma logb_ten_pow (n : ℕ) : Real.logb 10 ((10 : ℝ) ^ n) = n := by
  rw [Real.logb_pow, Real.logb_self_eq_one (by norm_num)]
  ring

/-- If `(10 ^ n)⁻¹ < x ^ m` then `-logb 10 x < n / m`. -/
lemma neg_logb_lt_div {x : ℝ} (m n : ℕ) (hm : 0 < m) (hx : 0 < x)
    (h : ((10 : ℝ) ^ n)⁻¹ < x ^ m) : -Real.logb 10 x < (n : ℝ) / m := by
  have hmr : (0 : ℝ) < m := by exact_mod_cast hm
  have h1 : Real.logb 10 (((10 : ℝ) ^ n)⁻¹) < Real.logb 10 (x ^ m) :=
    Real.logb_lt_logb (by norm_num) (by positivity) h
  rw [Real.logb_inv, logb_ten_pow, Real.logb_pow] at h1
  rw [lt_div_iff₀ hmr]
  nlinarith [h1]

/-- If `x ^ m < (10 ^ n)⁻¹` then `n / m < -logb 10 x`. -/
lemma div_lt_neg_logb {x : ℝ} (m n : ℕ) (hm : 0 < m) (hx : 0 < x)
    (h : x ^ m < ((10 : ℝ) ^ n)⁻¹) : (n : ℝ) / m < -Real.logb 10 x := by
  have hmr : (0 : ℝ) < m := by exact_mod_cast hm
  have h1 : Real.logb 10 (x ^ m) < Real.logb 10 (((10 : ℝ) ^ n)⁻¹) :=
    Real.logb_lt_logb (by norm_num) (by positivity) h
  rw [Real.logb_inv, logb_ten_pow, Real.logb_pow] at h1
  rw [div_lt_iff₀ hmr]
  nlinarith [h1]

/-- Far enough inside the excess-acid region the computed pH stays at or
below the 6.5 latch threshold. -/
lemma calculate_ph_lt_of_acid {v a c : ℝ} (hr : 0 < a * c - v * 0.1)
    (h : ((10 : ℝ) ^ 13)⁻¹ < (a * c - v * 0.1) * 1.8e-5) :
    calculate_ph v a c < 6.5 := by
  rw [calculate_ph_pos_branch hr]
  have harg : (0 : ℝ) < (a * c - v * 0.1) * 1.8e-5 := by positivity
  have hx : 0 < Real.sqrt ((a * c - v * 0.1) * 1.8e-5) :=
    Real.sqrt_pos.mpr harg
  have := neg_logb_lt_div 2 13 (by norm_num) hx
    (by rw [Real.sq_sqrt harg.le]; exact h)
  have h2 : ((13 : ℕ) : ℝ) / ((2 : ℕ) : ℝ) = 6.5 := by norm_num
  linarith [this, h2.le]

/-- Once the base excess is at least `1e-7` the computed pH is above the
6.5 latch threshold. -/
lemma calculate_ph_gt_of_base {v a c : ℝ} (h : 1e-7 ≤ v * 0.1 - a * c) :
    6.5 < calculate_ph v a c := by
  have hr : a * c - v * 0.1 < 0 := by linarith
  rw [calculate_ph_neg_branch hr]
  have hpos : (0 : ℝ) < -(a * c - v * 0.1) := by linarith
  have hx : 0 < 1e-14 / -(a * c - v * 0.1) := by positivity
  have hle : 1e-14 / -(a * c - v * 0.1) ≤ 1e-7 := by
    rw [div_le_iff₀ hpos]
    nlinarith
  have hpow : (1e-14 / -(a * c - v * 0.1)) ^ 2 < ((10 : ℝ) ^ 13)⁻¹ := by
    nlinarith [hx, hle]
  have := div_lt_neg_logb 2 13 (by norm_num) hx hpow
  have h2 : ((13 : ℕ) : ℝ) / ((2 : ℕ) : ℝ) = 6.5 := by norm_num
  linarith [this, h2.ge]

/-! ### Unfolding lemmas for `advance` -/

lemma advance_latched {s : ExperimentState}
    (h : s.has_reached_neutral = true) : advance s = s := by
  simp only [advance]
  rw [if_neg (by simp [h])]

lemma advance_not_running {s : ExperimentState}
    (h : s.is_running = false) : advance s = s := by
  simp only [advance]
  rw [if_neg (by simp [h])]

lemma advance_step_latch {s : ExperimentState} (hr : s.is_running = true)
    (hn : s.has_reached_neutral = false)
    (hph : 6.5 < calculate_ph (s.volume_naoh + 0.1) s.initial_vinegar 0.8) :
    advance s =
      { s with
        volume_naoh := s.volume_naoh + 0.1
        data := s.data ++ [(s.volume_naoh + 0.1,
          calculate_ph (s.volume_naoh + 0.1) s.initial_vinegar 0.8)]
        is_running := false
        has_reached_neutral := true } := by
  simp only [advance]
  rw [if_pos ⟨hr, hn⟩, if_pos hph]

lemma advance_step_quiet {s : ExperimentState} (hr : s.is_running = true)
    (hn : s.has_reached_neutral = false)
    (hph : calculate_ph (s.volume_naoh + 0.1) s.initial_vinegar 0.8 ≤ 6.5) :
    advance s =
      { s with
        volume_naoh := s.volume_naoh + 0.1
        data := s.data ++ [(s.volume_naoh + 0.1,
          calculate_ph (s.volume_naoh + 0.1) s.initial_vinegar 0.8)] } := by
  simp only [advance]
  rw [if_pos ⟨hr, hn⟩, if_neg (not_lt.mpr hph)]

/-! ### Shared numeric facts near the equivalence point -/

/-- With a tiny analyte volume the acid branch already starts above pH 7:
for `a = 1.25e-10` and `v = 0` the remaining acid is `1e-10`, so
`[H+] = sqrt (1.8e-15) < 1e-7` and the pH exceeds 7. -/
lemma computePh_tiny_acid_gt_seven : 7 < computePh 0 (1.25e-10) := by
  have hr : (0 : ℝ) < 1.25e-10 * 0.8 - 0 * 0.1 := by norm_num
  rw [computePh, calculate_ph_pos_branch hr]
  have harg : (0 : ℝ) < (1.25e-10 * 0.8 - 0 * 0.1) * 1.8e-5 := by norm_num
  have hx : 0 < Real.sqrt ((1.25e-10 * 0.8 - 0 * 0.1) * 1.8e-5) :=
    Real.sqrt_pos.mpr harg
  have hpow : Real.sqrt ((1.25e-10 * 0.8 - 0 * 0.1) * 1.8e-5) ^ 2 <
      ((10 : ℝ) ^ 14)⁻¹ := by
    rw [Real.sq_sqrt harg.le]; norm_num
  have := div_lt_neg_logb 2 14 (by norm_num) hx hpow
  have h2 : ((14 : ℕ) : ℝ) / ((2 : ℕ) : ℝ) = 7 := by norm_num
  linarith [this, h2.ge]

/-- Just past the equivalence point of the same tiny run the base branch
gives pH exactly 4: for `a = 1.25e-10` and `v = 2e-9` the base excess is
`1e-10`, so `[H+] = 1e-14 / 1e-10 = 1e-4`. -/
lemma computePh_tiny_base_eq_four : computePh (2e-9) (1.25e-10) = 4 := by
  have hr : (1.25e-10 * 0.8 - 2e-9 * 0.1 : ℝ) < 0 := by norm_num
  rw [computePh, calculate_ph_neg_branch hr]
  have harg : (1e-14 / -(1.25e-10 * 0.8 - 2e-9 * 0.1) : ℝ) =
      ((10 : ℝ) ^ 4)⁻¹ := by norm_num
  rw [harg, Real.logb_inv, logb_ten_pow]
  norm_num

/-- Claim C1, counterexample: with the analyte volume `a = 1.25e-10` the
pH at titrant volume `0` exceeds 7 while the pH at titrant volume `2e-9`
is exactly 4, so `computePh` is not non-decreasing in the titrant volume.
-/
theorem computePh_not_monotone :
    (0 : ℝ) ≤ 0 ∧ (0 : ℝ) ≤ 2e-9 ∧ (0 : ℝ) < 1.25e-10 ∧
      ¬computePh 0 (1.25e-10) ≤ computePh (2e-9) (1.25e-10) := by
  refine ⟨le_refl 0, by norm_num, by norm_num, ?_⟩
  push_neg
  rw [computePh_tiny_base_eq_four]
  linarith [computePh_tiny_acid_gt_seven]

/-- Claim C1, amended: for a fixed analyte volume `a > 0`, `computePh` is
non-decreasing in the titrant volume within the excess-acid region and
within the excess-base region separately; it is not monotone across the
equivalence point. -/
theorem computePh_mono_of_same_region (a v1 v2 : ℝ) (ha : 0 < a)
    (h1 : 0 ≤ v1) (h12 : v1 ≤ v2)
    (hreg : v2 * 0.1 < a * 0.8 ∨ a * 0.8 < v1 * 0.1) :
    computePh v1 a ≤ computePh v2 a := by
  rcases hreg with hacid | hbase
  · -- both volumes are in the excess-acid region
    have hr2 : (0 : ℝ) < a * 0.8 - v2 * 0.1 := by linarith
    have hr1 : (0 : ℝ) < a * 0.8 - v1 * 0.1 := by linarith
    rw [computePh, computePh, calculate_ph_pos_branch hr1,
      calculate_ph_pos_branch hr2]
    have harg2 : (0 : ℝ) < (a * 0.8 - v2 * 0.1) * 1.8e-5 := by positivity
    have hsq : Real.sqrt ((a * 0.8 - v2 * 0.1) * 1.8e-5) ≤
        Real.sqrt ((a * 0.8 - v1 * 0.1) * 1.8e-5) :=
      Real.sqrt_le_sqrt (by nlinarith)
    have := Real.logb_le_logb_of_le (b := 10) (by norm_num)
      (Real.sqrt_pos.mpr harg2) hsq
    linarith
  · -- both volumes are in the excess-base region
    have hx1 : (0 : ℝ) < -(a * 0.8 - v1 * 0.1) := by linarith
    have hx2 : (0 : ℝ) < -(a * 0.8 - v2 * 0.1) := by linarith
    have hr1 : (a * 0.8 - v1 * 0.1 : ℝ) < 0 := by linarith
    have hr2 : (a * 0.8 - v2 * 0.1 : ℝ) < 0 := by linarith
    rw [computePh, computePh, calculate_ph_neg_branch hr1,
      calculate_ph_neg_branch hr2]
    have hdiv : 1e-14 / -(a * 0.8 - v2 * 0.1) ≤
        1e-14 / -(a * 0.8 - v1 * 0.1) :=
      (div_le_div_left (by norm_num) hx2 hx1).mpr (by linarith)
    have := Real.logb_le_logb_of_le (b := 10) (by norm_num)
      (by positivity) hdiv
    linarith

/-- Witness for the amended C1: with 50 mL of analyte, both 0 mL and
100 mL of titrant are in the excess-acid region and the pH is
non-decreasing between them. -/
theorem computePh_mono_of_same_region_witness :
    computePh 0 50 ≤ computePh 100 50 :=
  computePh_mono_of_same_region 50 0 100 (by norm_num) (by norm_num)
    (by norm_num) (Or.inl (by norm_num))

/-- Claim C10: there are inputs in the excess-acid region
(`moles_acid - moles_base > 0`) for which `computePh` returns a value
strictly greater than 7: the excess-acid branch is not bounded above
by 7. -/
theorem computePh_acid_branch_exceeds_seven :
    0 < (1.25e-10 : ℝ) * 0.8 - 0 * 0.1 ∧ 7 < computePh 0 (1.25e-10) :=
  ⟨by norm_num, computePh_tiny_acid_gt_seven⟩

/-- Claim C6, counterexample: with the latch set (`has_reached_neutral =
true`) and the burette stopped, pressing the start/stop control still
flips `is_running`; `toggleRunning` is not a no-op in the latched state. -/
theorem toggleRunning_not_noop_when_latched :
    (ExperimentState.mk 400 false [] true 50).has_reached_neutral = true ∧
      toggleRunning (ExperimentState.mk 400 false [] true 50) ≠
        ExperimentState.mk 400 false [] true 50 := by
  refine ⟨rfl, fun h => ?_⟩
  have h2 := congrArg ExperimentState.is_running h
  simp [toggleRunning] at h2

/-- Claim C6, amended: `toggleRunning` always flips `is_running` and
changes nothing else, regardless of the latch; in particular it never
clears `has_reached_neutral` (only `resetState` does). -/
theorem toggleRunning_always_flips (s : ExperimentState) :
    (toggleRunning s).is_running = !s.is_running ∧
      (toggleRunning s).volume_naoh = s.volume_naoh ∧
      (toggleRunning s).data = s.data ∧
      (toggleRunning s).has_reached_neutral = s.has_reached_neutral ∧
      (toggleRunning s).initial_vinegar = s.initial_vinegar :=
  ⟨rfl, rfl, rfl, rfl, rfl⟩

/-- Claim C5, counterexample: `calculate_ph` performs no input
validation.  Called with the negative titrant volume `-100` it does not
fail: it lands in the ordinary excess-acid branch and returns
`-log10 (sqrt (50 * 1.8e-5))`, whereas the spec's validated version
rejects the call. -/
theorem computePh_no_validation :
    computePh (-100) 50 = -Real.logb 10 (Real.sqrt (50 * 1.8e-5)) ∧
      computePhSpecValidated (-100) 50 = none := by
  constructor
  · rw [computePh, calculate_ph_pos_branch (by norm_num)]
    norm_num
  · rw [computePhSpecValidated, if_neg (by norm_num)]

/-- Claim C5, amended: `computePh` is a total pure function with no
input validation: it never fails, and every call with a non-positive
titrant volume and positive analyte volume is processed by the ordinary
excess-acid formula. -/
theorem computePh_total_on_nonpositive (v a : ℝ) (hv : v ≤ 0)
    (ha : 0 < a) :
    computePh v a =
      -Real.logb 10 (Real.sqrt ((a * 0.8 - v * 0.1) * 1.8e-5)) := by
  rw [computePh]
  exact calculate_ph_pos_branch (by nlinarith)

/-- Witness for the amended C5: the negative volume `-100` is processed
by the excess-acid formula rather than rejected. -/
theorem computePh_total_on_nonpositive_witness :
    computePh (-100) 50 =
      -Real.logb 10 (Real.sqrt ((50 * 0.8 - (-100) * 0.1) * 1.8e-5)) :=
  computePh_total_on_nonpositive (-100) 50 (by norm_num) (by norm_num)

/-- Claim C3: whenever `remaining = moles_acid - moles_base` is zero,
`computePh` returns exactly `7`; in particular with 50 mL of analyte the
equivalence point at 400 mL of titrant returns exactly 7 (see the
witness). -/
theorem computePh_eq_seven_of_equivalence (v a : ℝ)
    (h : a * 0.8 - v * 0.1 = 0) : computePh v a = 7 :=
  calculate_ph_zero_branch h

/-- Witness for C3: the equivalence point of a 50 mL, 0.8 M analyte run is
at 400 mL of 0.1 M titrant and the pH there is exactly 7. -/
theorem computePh_eq_seven_of_equivalence_witness : computePh 400 50 = 7 :=
  computePh_eq_seven_of_equivalence 400 50 (by norm_num)

/-! ### The pH of the fresh default run (claim C4) -/

lemma computePh_zero_fifty_formula :
    computePh 0 50 = -Real.logb 10 (Real.sqrt (50 * 0.8 * 1.8e-5)) := by
  rw [computePh, calculate_ph_pos_branch (by norm_num)]
  norm_num

lemma computePh_zero_fifty_gt : 1.5 < computePh 0 50 := by
  rw [computePh_zero_fifty_formula]
  have harg : (0 : ℝ) < 50 * 0.8 * 1.8e-5 := by norm_num
  have hx : 0 < Real.sqrt (50 * 0.8 * 1.8e-5) := Real.sqrt_pos.mpr harg
  have hpow : Real.sqrt (50 * 0.8 * 1.8e-5) ^ 2 < ((10 : ℝ) ^ 3)⁻¹ := by
    rw [Real.sq_sqrt harg.le]; norm_num
  have := div_lt_neg_logb 2 3 (by norm_num) hx hpow
  have h2 : ((3 : ℕ) : ℝ) / ((2 : ℕ) : ℝ) = 1.5 := by norm_num
  linarith [this, h2.ge]

lemma computePh_zero_fifty_lt : computePh 0 50 < 1.6 := by
  rw [computePh_zero_fifty_formula]
  have harg : (0 : ℝ) < 50 * 0.8 * 1.8e-5 := by norm_num
  have hx : 0 < Real.sqrt (50 * 0.8 * 1.8e-5) := Real.sqrt_pos.mpr harg
  have hpow : ((10 : ℝ) ^ 8)⁻¹ < Real.sqrt (50 * 0.8 * 1.8e-5) ^ 5 := by
    refine lt_of_pow_lt_pow_left 2 (by positivity) ?_
    have hswap : (Real.sqrt (50 * 0.8 * 1.8e-5) ^ 5) ^ 2 =
        (Real.sqrt (50 * 0.8 * 1.8e-5) ^ 2) ^ 5 := by ring
    rw [hswap, Real.sq_sqrt harg.le]
    norm_num
  have := neg_logb_lt_div 5 8 (by norm_num) hx hpow
  have h2 : ((8 : ℕ) : ℝ) / ((5 : ℕ) : ℝ) = 1.6 := by norm_num
  linarith [this, h2.le]

/-- Claim C4, counterexample: `computePh 0 50` is more than a whole pH
unit away from the claimed approximate value `2.725` (its true value is
about `1.571`). -/
theorem computePh_zero_fifty_far_from_claimed :
    1 < |computePh 0 50 - 2.725| := by
  rw [abs_of_neg (by linarith [computePh_zero_fifty_lt])]
  linarith [computePh_zero_fifty_lt]

/-- Claim C4, amended: `computePh 0 50` equals
`-log10 (sqrt (50 * 0.8 * 1.8e-5))`, and this value is approximately
`1.57` (strictly between `1.5` and `1.6`), not `2.725`. -/
theorem computePh_zero_fifty_value :
    computePh 0 50 = -Real.logb 10 (Real.sqrt (50 * 0.8 * 1.8e-5)) ∧
      1.5 < computePh 0 50 ∧ computePh 0 50 < 1.6 :=
  ⟨computePh_zero_fifty_formula, computePh_zero_fifty_gt,
    computePh_zero_fifty_lt⟩

/-- Claim C9: for valid positive inputs the three branches of
`calculate_ph` are mutually exclusive and exhaustive over the sign of
`remaining`, and in each logarithmic branch the argument of `log10` is
strictly positive (no division by zero and no log of zero), so the
function always returns a well-defined real number. -/
theorem calculate_ph_branches_safe (v a c : ℝ) (hv : 0 ≤ v) (ha : 0 < a)
    (hc : 0 < c) :
    (0 < a * c - v * 0.1 ∧
        0 < Real.sqrt ((a * c - v * 0.1) * 1.8e-5) ∧
        calculate_ph v a c =
          -Real.logb 10 (Real.sqrt ((a * c - v * 0.1) * 1.8e-5))) ∨
      (a * c - v * 0.1 < 0 ∧
          0 < 1e-14 / -(a * c - v * 0.1) ∧
          calculate_ph v a c =
            -Real.logb 10 (1e-14 / -(a * c - v * 0.1))) ∨
      (a * c - v * 0.1 = 0 ∧ calculate_ph v a c = 7) := by
  rcases lt_trichotomy (a * c - v * 0.1) 0 with h | h | h
  · exact Or.inr (Or.inl ⟨h, div_pos (by norm_num) (by linarith),
      calculate_ph_neg_branch h⟩)
  · exact Or.inr (Or.inr ⟨h, calculate_ph_zero_branch h⟩)
  · exact Or.inl ⟨h, Real.sqrt_pos.mpr (by positivity),
      calculate_ph_pos_branch h⟩

/-- Witness for C9 at the fresh default inputs `v = 0`, `a = 50`,
`c = 0.8` (the excess-acid branch applies). -/
theorem calculate_ph_branches_safe_witness :
    (0 < (50 : ℝ) * 0.8 - 0 * 0.1 ∧
        0 < Real.sqrt (((50 : ℝ) * 0.8 - 0 * 0.1) * 1.8e-5) ∧
        calculate_ph 0 50 0.8 =
          -Real.logb 10 (Real.sqrt (((50 : ℝ) * 0.8 - 0 * 0.1) * 1.8e-5))) ∨
      ((50 : ℝ) * 0.8 - 0 * 0.1 < 0 ∧
          0 < 1e-14 / -((50 : ℝ) * 0.8 - 0 * 0.1) ∧
          calculate_ph 0 50 0.8 =
            -Real.logb 10 (1e-14 / -((50 : ℝ) * 0.8 - 0 * 0.1))) ∨
      ((50 : ℝ) * 0.8 - 0 * 0.1 = 0 ∧ calculate_ph 0 50 0.8 = 7) :=
  calculate_ph_branches_safe 0 50 0.8 le_rfl (by norm_num) (by norm_num)

/-- Claim C2: `has_reached_neutral` is a one-way latch.  A latched state
(and likewise a stopped state) is left unchanged by `advance`; on a
running, unlatched state the latch is set exactly when the newly computed
pH exceeds `6.5`, and setting it forces `is_running` to `false`. -/
theorem advance_latch (s : ExperimentState) :
    (s.has_reached_neutral = true → advance s = s) ∧
      (s.is_running = false → advance s = s) ∧
      (s.is_running = true → s.has_reached_neutral = false →
        (((advance s).has_reached_neutral = true ↔
            6.5 < calculate_ph (s.volume_naoh + 0.1) s.initial_vinegar 0.8) ∧
          ((advance s).has_reached_neutral = true →
            (advance s).is_running = false))) := by
  refine ⟨fun h => advance_latched h, fun h => advance_not_running h,
    fun hr hn => ?_⟩
  by_cases hph :
    6.5 < calculate_ph (s.volume_naoh + 0.1) s.initial_vinegar 0.8
  · rw [advance_step_latch hr hn hph]
    simp [hph]
  · rw [advance_step_quiet hr hn (not_lt.mp hph)]
    simp [hn, hph]

/-- Witness for C2: a latched state is left unchanged by `advance`. -/
theorem advance_latch_witness :
    advance (ExperimentState.mk 400 false [] true 50) =
      ExperimentState.mk 400 false [] true 50 :=
  (advance_latch (ExperimentState.mk 400 false [] true 50)).1 rfl

/-- Claim C7: on the advancement step of a fresh 50 mL run that reaches
titrant volume 400 mL, the computed pH is exactly 7, the latch triggers,
and the completion beep sequence is played twice in that iteration (the
latch block and its duplicated nested copy both fire), contradicting the
exactly-once completion signal. -/
theorem neutralBeep_double_at_equivalence :
    neutralBeepSequences (ExperimentState.mk 399.9 true [] false 50) = 2 := by
  have h7 : calculate_ph ((399.9 : ℝ) + 0.1) 50 0.8 = 7 := by
    have h400 : (399.9 : ℝ) + 0.1 = 400 := by norm_num
    rw [h400]
    exact calculate_ph_zero_branch (by norm_num)
  show (if (true = true ∧ false = false) then
      (if calculate_ph ((399.9 : ℝ) + 0.1) 50 0.8 > 6.5 then
        1 + (if calculate_ph ((399.9 : ℝ) + 0.1) 50 0.8 > 6.5 ∧
              calculate_ph ((399.9 : ℝ) + 0.1) 50 0.8 < 7.5 then 1 else 0)
       else 0)
    else 0) = 2
  rw [if_pos ⟨rfl, rfl⟩, h7, if_pos (by norm_num : (7 : ℝ) > 6.5),
    if_pos (⟨by norm_num, by norm_num⟩ : (7 : ℝ) > 6.5 ∧ (7 : ℝ) < 7.5)]

/-- Claim C8: each advancement of a running, unlatched state adds exactly
`0.1` to the titrant volume and appends exactly one sample; five
advancements from a fresh running 50 mL state produce a history of length
5 whose titrant volumes are `0.1, 0.2, 0.3, 0.4, 0.5` in order. -/
theorem advance_five_steps :
    (∀ s : ExperimentState, s.is_running = true →
        s.has_reached_neutral = false →
        (advance s).volume_naoh = s.volume_naoh + 0.1 ∧
          (advance s).data.length = s.data.length + 1) ∧
      ((advance (advance (advance (advance (advance
            (toggleRunning initialState)))))).data.map Prod.fst =
          [0.1, 0.2, 0.3, 0.4, 0.5] ∧
        (advance (advance (advance (advance (advance
            (toggleRunning initialState)))))).data.length = 5) := by
  constructor
  · intro s hr hn
    by_cases hph :
      6.5 < calculate_ph (s.volume_naoh + 0.1) s.initial_vinegar 0.8
    · rw [advance_step_latch hr hn hph]
      simp
    · rw [advance_step_quiet hr hn (not_lt.mp hph)]
      simp
  · have e0 : toggleRunning initialState =
        ExperimentState.mk 0 true [] false 50 := rfl
    have hb1 : calculate_ph ((0 : ℝ) + 0.1) 50 0.8 ≤ 6.5 :=
      (calculate_ph_lt_of_acid (by norm_num) (by norm_num)).le
    have e1 : advance (ExperimentState.mk 0 true [] false 50) =
        ExperimentState.mk 0.1 true
          [(0.1, calculate_ph 0.1 50 0.8)] false 50 := by
      rw [advance_step_quiet rfl rfl hb1]
      ext <;> norm_num
    have hb2 : calculate_ph ((0.1 : ℝ) + 0.1) 50 0.8 ≤ 6.5 :=
      (calculate_ph_lt_of_acid (by norm_num) (by norm_num)).le
    have e2 : advance (ExperimentState.mk 0.1 true
          [(0.1, calculate_ph 0.1 50 0.8)] false 50) =
        ExperimentState.mk 0.2 true
          [(0.1, calculate_ph 0.1 50 0.8),
           (0.2, calculate_ph 0.2 50 0.8)] false 50 := by
      rw [advance_step_quiet rfl rfl hb2]
      ext <;> norm_num
    have hb3 : calculate_ph ((0.2 : ℝ) + 0.1) 50 0.8 ≤ 6.5 :=
      (calculate_ph_lt_of_acid (by norm_num) (by norm_num)).le
    have e3 : advance (ExperimentState.mk 0.2 true
          [(0.1, calculate_ph 0.1 50 0.8),
           (0.2, calculate_ph 0.2 50 0.8)] false 50) =
        ExperimentState.mk 0.3 true
          [(0.1, calculate_ph 0.1 50 0.8),
           (0.2, calculate_ph 0.2 50 0.8),
           (0.3, calculate_ph 0.3 50 0.8)] false 50 := by
      rw [advance_step_quiet rfl rfl hb3]
      ext <;> norm_num
    have hb4 : calculate_ph ((0.3 : ℝ) + 0.1) 50 0.8 ≤ 6.5 :=
      (calculate_ph_lt_of_acid (by norm_num) (by norm_num)).le
    have e4 : advance (ExperimentState.mk 0.3 true
          [(0.1, calculate_ph 0.1 50 0.8),
           (0.2, calculate_ph 0.2 50 0.8),
           (0.3, calculate_ph 0.3 50 0.8)] false 50) =
        ExperimentState.mk 0.4 true
          [(0.1, calculate_ph 0.1 50 0.8),
           (0.2, calculate_ph 0.2 50 0.8),
           (0.3, calculate_ph 0.3 50 0.8),
           (0.4, calculate_ph 0.4 50 0.8)] false 50 := by
      rw [advance_step_quiet rfl rfl hb4]
      ext <;> norm_num
    have hb5 : calculate_ph ((0.4 : ℝ) + 0.1) 50 0.8 ≤ 6.5 :=
      (calculate_ph_lt_of_acid (by norm_num) (by norm_num)).le
    have e5 : advance (ExperimentState.mk 0.4 true
          [(0.1, calculate_ph 0.1 50 0.8),
           (0.2, calculate_ph 0.2 50 0.8),
           (0.3, calculate_ph 0.3 50 0.8),
           (0.4, calculate_ph 0.4 50 0.8)] false 50) =
        ExperimentState.mk 0.5 true
          [(0.1, calculate_ph 0.1 50 0.8),
           (0.2, calculate_ph 0.2 50 0.8),
           (0.3, calculate_ph 0.3 50 0.8),
           (0.4, calculate_ph 0.4 50 0.8),
           (0.5, calculate_ph 0.5 50 0.8)] false 50 := by
      rw [advance_step_quiet rfl rfl hb5]
      ext <;> norm_num
    rw [e0, e1, e2, e3, e4, e5]
    exact ⟨by simp, rfl⟩

/-- Witness for C8: one advancement of the fresh running 50 mL state adds
`0.1` to the volume and one sample to the history. -/
theorem advance_five_steps_witness :
    (advance (ExperimentState.mk 0 true [] false 50)).volume_naoh =
        (ExperimentState.mk 0 true [] false 50).volume_naoh + 0.1 ∧
      (advance (ExperimentState.mk 0 true [] false 50)).data.length =
        (ExperimentState.mk 0 true [] false 50).data.length + 1 :=
  advance_five_steps.1 (ExperimentState.mk 0 true [] false 50) rfl rfl

end Titration
